import Mathlib

/-!
Verification of the tax-computation and document-assembly core of the
`satcfdi` CFDI 4.0 library (`src/satcfdi/create/cfd/cfdi40.py`), as a shallow
embedding over exact rationals (the source computes with `decimal.Decimal`,
which is exact decimal arithmetic; every value produced is a rational).

Strings are Lean `String`s; absent dictionary entries / `None` are `Option`.
The helper module `satcfdi.create.compute` (`rounder`, `make_impuesto`,
`make_impuestos`, `make_impuestos_dr`, `make_impuestos_dr_parcial`) is not part
of the sources under verification; those helpers are modelled from the
specification's description of the currency rounding table and the
TaxAggregator and are marked `Modelled from the spec:` below.
-/

namespace Satcfdi

/-- Modelled from the spec: the currency rounding table maps a currency code to
a decimal precision, and amounts are rounded at that precision (`rounder` of
the compute module, not under src/).  `rnd nd x` rounds `x` to `nd` decimal
places: scale, round to the nearest integer, unscale. -/
def rnd (nd : ℕ) (x : ℚ) : ℚ := (round (x * 10 ^ nd) : ℤ) / 10 ^ nd

/-- A concept-level or document-level tax record, mirroring the attribute dict
built by `Impuesto.__init__` (fields `Base`, `Impuesto`, `TipoFactor`,
`TasaOCuota`, `Importe`; condicional attributes are `Option`). -/
structure Impuesto where
  base : Option ℚ
  impuesto : String
  tipoFactor : String
  tasaOCuota : Option ℚ
  importe : Option ℚ
deriving DecidableEq

/-- The `_impuestos` name-to-code table of cfdi40.py. -/
def _impuestos : List (String × String) := [("ISR", "001"), ("IVA", "002"), ("IEPS", "003")]

/-- `Impuesto.__init__`: the tax kind passes through `_impuestos.get(impuesto, impuesto)`
(named kinds become their numeric codes, anything else is stored verbatim); the
constructor never rejects its input. -/
def Impuesto.init (impuesto tipo_factor : String) (tasa_o_cuota importe base : Option ℚ) : Impuesto :=
  { base := base
    impuesto := (_impuestos.lookup impuesto).getD impuesto
    tipoFactor := tipo_factor
    tasaOCuota := tasa_o_cuota
    importe := importe }

/-- Python `str.split(sep)` for a one-character separator, on the character
list of the string: always returns at least one (possibly empty) part and keeps
empty parts. -/
def splitOnChar (sep : Char) : List Char → List (List Char)
  | [] => [[]]
  | c :: cs =>
    match splitOnChar sep cs with
    | [] => [[]]
    | f :: rest => if c = sep then [] :: f :: rest else (c :: f) :: rest

/-- Digit-string accumulator used by the decimal literal parser; fails on a
non-digit character. -/
def digitsToNatAux : ℕ → List Char → Option ℕ
  | acc, [] => some acc
  | acc, c :: cs => if c.isDigit then digitsToNatAux (10 * acc + (c.toNat - 48)) cs else none

/-- Modelled from the spec: the exact-decimal constructor of the external
decimal library (`Decimal(text)`), on plain decimal literals: optional leading
minus sign, digits, optional fraction point.  Returns `none` on a malformed
literal (the library raises there). -/
def parseDecimal (s : List Char) : Option ℚ :=
  let signed : ℚ × List Char :=
    match s with
    | '-' :: rest => (-1, rest)
    | _ => (1, s)
  match splitOnChar '.' signed.2 with
  | [a] =>
    if a = [] then none else (digitsToNatAux 0 a).map fun n => signed.1 * n
  | [a, b] =>
    if a ++ b = [] then none
    else (digitsToNatAux 0 (a ++ b)).map fun n => signed.1 * n / 10 ^ b.length
  | _ => none

/-- `Impuesto.parse`: split the compact string on the `|` delimiter; part 0 is
the kind, part 1 the factor type, optional part 2 the rate.  Accessing a
missing part 1 raises in the source (`IndexError`), modelled as the
`MalformedTaxSpec` error; a malformed rate literal raises in the decimal
library (`InvalidOperation`). -/
def Impuesto.parse (impuesto : String) : Except String Impuesto :=
  match splitOnChar '|' impuesto.data with
  | p0 :: p1 :: rest =>
    match rest with
    | [] => .ok (Impuesto.init (String.mk p0) (String.mk p1) none none none)
    | p2 :: _ =>
      match parseDecimal p2 with
      | some q => .ok (Impuesto.init (String.mk p0) (String.mk p1) (some q) none none)
      | none => .error "InvalidOperation"
  | _ => .error "MalformedTaxSpec"

/-- One business concept as handed to `Comprobante.__init__`, with its tax
records already in structured form (string-form records go through
`Impuesto.parse` first in the source). -/
structure Concepto where
  cantidad : ℚ
  valorUnitario : ℚ
  descuento : Option ℚ
  objetoImp : Option String
  traslados : List Impuesto
  retenciones : List Impuesto
  trasladosIncluidos : Bool
deriving DecidableEq

/-- The concept dict after the per-concept pass of `Comprobante.__init__`
(`ValorUnitario` possibly back-solved and rounded, `Importe` filled in,
`Impuestos` computed or nulled, `ObjetoImp` reclassified). -/
structure ProcConcepto where
  cantidad : ℚ
  valorUnitario : ℚ
  importe : ℚ
  descuento : Option ℚ
  objetoImp : Option String
  impuestos : Option (List Impuesto × List Impuesto)
deriving DecidableEq

/-- Left fold summing `f` over a list, as the source's `sum(...)` generators. -/
def sumBy (l : List α) (f : α → ℚ) : ℚ := l.foldl (fun a x => a + f x) 0

/-- Sum of `TasaOCuota` over the transferred records whose factor type is `Tasa`
(`s_tasa` in the source). -/
def sumTasas (l : List Impuesto) : ℚ :=
  sumBy (l.filter fun t => t.tipoFactor == "Tasa") fun t => t.tasaOCuota.getD 0

/-- Sum of `TasaOCuota` over the transferred records whose factor type is `Cuota`
(`s_cuota` in the source). -/
def sumCuotas (l : List Impuesto) : ℚ :=
  sumBy (l.filter fun t => t.tipoFactor == "Cuota") fun t => t.tasaOCuota.getD 0

/-- The guard of the back-solve rejection: some transferred record of factor
type `Tasa` or `Cuota` already carries `Base` or `Importe`. -/
def ambiguousIncl (trasladados : List Impuesto) : Bool :=
  trasladados.any fun t =>
    (t.tipoFactor == "Tasa" || t.tipoFactor == "Cuota") && (t.base.isSome || t.importe.isSome)

/-- Modelled from the spec: `make_impuesto` of the compute module (not under
src/).  Per the TaxRecord contract of the spec, the returned record carries the
given base; a rate (`Tasa`) record gets `amount = round(base * rate)`, a fee
(`Cuota`) record gets the rounded quantity-independent fee, and an exempt
record carries no amount. -/
def make_impuesto (nd : ℕ) (base : ℚ) (i : Impuesto) : Impuesto :=
  if i.tipoFactor = "Exento" then
    { i with base := some base }
  else if i.tipoFactor = "Cuota" then
    { i with base := some base, importe := some (rnd nd (i.tasaOCuota.getD 0)) }
  else
    { i with base := some base, importe := some (rnd nd (base * i.tasaOCuota.getD 0)) }

/-- The per-concept pass of `Comprobante.__init__` (source lines 352-385).  The
pair returned by the first stage is `(stored, local)`: the source assigns the
rounded back-solved price to the concept dict but keeps the local variable
`valor_unitario` unrounded, and the later `importe = cantidad * valor_unitario`
and `base = importe - descuento` read the local variable. -/
def processConcepto (nd : ℕ) (c : Concepto) : Except String ProcConcepto :=
  let step : Except String (ℚ × ℚ) :=
    if c.trasladosIncluidos then
      let s_tasa := sumTasas c.traslados
      let s_cuota := sumCuotas c.traslados
      if ambiguousIncl c.traslados then
        .error "AmbiguousTaxBase"
      else
        let valor_unitario := (c.valorUnitario - s_cuota) / (s_tasa + 1)
        .ok (rnd nd valor_unitario, valor_unitario)
    else
      .ok (c.valorUnitario, c.valorUnitario)
  match step with
  | .error e => .error e
  | .ok (vuStored, vuLocal) =>
    let importe := c.cantidad * vuLocal
    if c.objetoImp = some "01" ∨ c.objetoImp = some "03" then
      .ok { cantidad := c.cantidad, valorUnitario := vuStored, importe := rnd nd importe
            descuento := c.descuento, objetoImp := c.objetoImp, impuestos := none }
    else
      let base := importe - c.descuento.getD 0
      let imps : Option (List Impuesto × List Impuesto) :=
        if c.traslados.isEmpty && c.retenciones.isEmpty then none
        else some (c.traslados.map (make_impuesto nd base), c.retenciones.map (make_impuesto nd base))
      .ok { cantidad := c.cantidad, valorUnitario := vuStored, importe := rnd nd importe
            descuento := c.descuento
            objetoImp := some (if imps.isSome then "02" else "01")
            impuestos := imps }

/-- The unit price the source actually multiplies by `Cantidad`: the unrounded
back-solved price when `_traslados_incluidos`, the given price otherwise. -/
def effVU (c : Concepto) : ℚ :=
  if c.trasladosIncluidos then
    (c.valorUnitario - sumCuotas c.traslados) / (sumTasas c.traslados + 1)
  else
    c.valorUnitario

/-- Grouping key of document-level tax aggregation: `(kind, factor, rate)`. -/
def groupKey (i : Impuesto) : String × String × Option ℚ := (i.impuesto, i.tipoFactor, i.tasaOCuota)

/-- Modelled from the spec: the grouping step of the TaxAggregator (compute
module, not under src/): concept-level records are grouped by
`(kind, factor, rate)` with exact rate comparison; `base` and `amount` are
summed within each group; exempt groups carry no amount. -/
def groupImp (l : List Impuesto) : List Impuesto :=
  ((l.map groupKey).dedup).map fun k =>
    let members := l.filter fun i => groupKey i = k
    { impuesto := k.1
      tipoFactor := k.2.1
      tasaOCuota := k.2.2
      base := some (sumBy members fun i => i.base.getD 0)
      importe :=
        if k.2.1 = "Exento" then none
        else some (sumBy members fun i => i.importe.getD 0) }

/-- All transferred records of the processed concept list. -/
def allTraslados (cs : List ProcConcepto) : List Impuesto :=
  cs.flatMap fun c => ((c.impuestos.map Prod.fst).getD [])

/-- All withheld records of the processed concept list. -/
def allRetenciones (cs : List ProcConcepto) : List Impuesto :=
  cs.flatMap fun c => ((c.impuestos.map Prod.snd).getD [])

/-- The document-level `Impuestos` node: grouped transferred and withheld
records plus the two grand totals. -/
structure ImpuestosDoc where
  retenciones : List Impuesto
  traslados : List Impuesto
  totalRetenidos : ℚ
  totalTrasladados : ℚ
deriving DecidableEq

/-- Modelled from the spec: `make_impuestos` of the compute module (not under
src/): document-level aggregation of every concept-level record, grouped by
`(kind, factor, rate)`; the grand totals are the sums of the group amounts;
returns nothing (a falsy value) when no concept carries any tax record. -/
def make_impuestos (cs : List ProcConcepto) : Option ImpuestosDoc :=
  if allTraslados cs = [] ∧ allRetenciones cs = [] then none
  else some
    { retenciones := groupImp (allRetenciones cs)
      traslados := groupImp (allTraslados cs)
      totalRetenidos := sumBy (groupImp (allRetenciones cs)) fun g => g.importe.getD 0
      totalTrasladados := sumBy (groupImp (allTraslados cs)) fun g => g.importe.getD 0 }

/-- The totals-bearing part of the assembled document (`SubTotal`, `Descuento`,
`Total`, `Impuestos`, processed `Conceptos`). -/
structure ComprobanteDoc where
  subTotal : ℚ
  total : ℚ
  descuento : Option ℚ
  impuestos : Option ImpuestosDoc
  conceptos : List ProcConcepto
deriving DecidableEq

/-- The computational core of `Comprobante.__init__` (source lines 350-431):
process every concept (aborting the build on the back-solve rejection), sum the
stored `Importe` values into `SubTotal` without re-rounding, sum the concept
discounts, aggregate taxes, and derive `Total`; a zero summed discount is
stored as an absent `Descuento` (`descuento or None`). -/
def Comprobante.init (nd : ℕ) (conceptos : List Concepto) : Except String ComprobanteDoc :=
  match conceptos.mapM (processConcepto nd) with
  | .error e => .error e
  | .ok pcs =>
    let sub_total := sumBy pcs fun c => c.importe
    let descuento := sumBy pcs fun c => c.descuento.getD 0
    let impuestos := make_impuestos pcs
    let total :=
      match impuestos with
      | none => sub_total - descuento
      | some imp => sub_total - descuento + imp.totalTrasladados - imp.totalRetenidos
    .ok { subTotal := sub_total
          total := total
          descuento := if descuento = 0 then none else some descuento
          impuestos := impuestos
          conceptos := pcs }

/-- Modelled from the spec: the per-group proration formula of
`make_impuestos_dr_parcial` (compute module, not under src/):
`round(group_amount_on_original_document * paid_now / total_of_original_document)`
at the original document's currency precision. -/
def prorate (nd : ℕ) (amount paid_now total : ℚ) : ℚ := rnd nd (amount * paid_now / total)

/-- Modelled from the spec: proration of one original-document tax group:
`base` and (for non-exempt groups) `amount` are prorated by
`paid_now / total`; exempt groups carry only a prorated base, never an
amount. -/
def prorateImp (nd : ℕ) (imp_pagado total : ℚ) (g : Impuesto) : Impuesto :=
  if g.tipoFactor = "Exento" then
    { g with base := some (prorate nd (g.base.getD 0) imp_pagado total), importe := none }
  else
    { g with base := some (prorate nd (g.base.getD 0) imp_pagado total)
             importe := some (prorate nd (g.importe.getD 0) imp_pagado total) }

/-- Modelled from the spec: `make_impuestos_dr_parcial` (compute module, not
under src/), as called by `Comprobante.pago_comprobante`: the grouping key set
mirrors the original document's groups (recomputed from its concepts), and each
group is prorated by `imp_pagado / total` at the original document's currency
precision; `imp_saldo_ant` is accepted but does not enter the formula. -/
def make_impuestos_dr_parcial (nd : ℕ) (conceptos : List ProcConcepto)
    (imp_saldo_ant imp_pagado total : ℚ) : List Impuesto × List Impuesto :=
  ((groupImp (allTraslados conceptos)).map (prorateImp nd imp_pagado total),
   (groupImp (allRetenciones conceptos)).map (prorateImp nd imp_pagado total))

/-- The fields of a source comprobante that `Comprobante.pago_comprobantes`
reads when batching payments. -/
structure CfdiSummary where
  moneda : String
  emisorRfc : String
  emisorRegimenFiscal : String
  receptorRfc : String
  receptorRegimenFiscal : Option String
  total : ℚ
  uuid : String
deriving DecidableEq

/-- The issuer fields `pago_comprobantes` compares against (`emisor.rfc`,
`emisor.tax_system`). -/
structure IssuerM where
  rfc : String
  taxSystem : String
deriving DecidableEq

/-- One `DoctoRelacionado` entry of the produced payment document (the fields
the batching claim is about). -/
structure DoctoRelacionado where
  idDocumento : String
  numParcialidad : ℕ
  impSaldoAnt : ℚ
  impPagado : ℚ
deriving DecidableEq

/-- The batching logic of `Comprobante.pago_comprobantes` (source lines
624-667): the first comprobante fixes the currency and the receiver; every
comprobante must match that currency, the paying issuer's RFC and tax regime,
and the first receiver's RFC and tax regime, else the build aborts; when all
agree, one `DoctoRelacionado` per comprobante is produced, paying it in full
(`ImpSaldoAnt = ImpPagado = Total`, `NumParcialidad = 1`).  The empty sequence
indexes `comprobantes[0]` and raises in the source. -/
def pago_comprobantes (emisor : IssuerM) (comprobantes : List CfdiSummary) :
    Except String (List DoctoRelacionado) :=
  match comprobantes with
  | [] => .error "IndexError"
  | first :: _ =>
    if comprobantes.all fun c =>
        c.moneda == first.moneda
        && c.emisorRfc == emisor.rfc
        && c.emisorRegimenFiscal == emisor.taxSystem
        && c.receptorRfc == first.receptorRfc
        && c.receptorRegimenFiscal == first.receptorRegimenFiscal then
      .ok (comprobantes.map fun c => ⟨c.uuid, 1, c.total, c.total⟩)
    else
      .error "CFDIS are of different RFCs Emisor/Receptor o Moneda"

/-! Concrete inputs used to witness the theorems below and to refute the
claims that fail, at two-decimal (MXN) precision. -/

/-- Witness concept for the totals claim: quantity 2 at 1.50 with a 1.00
discount and a 16% transferred IVA. -/
def cW1 : Concepto :=
  { cantidad := 2, valorUnitario := 3/2, descuento := some 1, objetoImp := none,
    traslados := [⟨none, "002", "Tasa", some (4/25), none⟩], retenciones := [],
    trasladosIncluidos := false }

/-- The processed form of `cW1`. -/
def pcW1 : ProcConcepto :=
  { cantidad := 2, valorUnitario := 3/2, importe := 3, descuento := some 1,
    objetoImp := some "02",
    impuestos := some ([⟨some 2, "002", "Tasa", some (4/25), some (8/25)⟩], []) }

/-- The document built from `cW1` alone. -/
def docW1 : ComprobanteDoc :=
  { subTotal := 3, total := 58/25, descuento := some 1,
    impuestos := some
      { retenciones := [], traslados := [⟨some 2, "002", "Tasa", some (4/25), some (8/25)⟩],
        totalRetenidos := 0, totalTrasladados := 8/25 },
    conceptos := [pcW1] }

/-- Witness concept with no discount and no taxes. -/
def cW10 : Concepto :=
  { cantidad := 1, valorUnitario := 100, descuento := none, objetoImp := none,
    traslados := [], retenciones := [], trasladosIncluidos := false }

/-- The processed form of `cW10`. -/
def pcW10 : ProcConcepto :=
  { cantidad := 1, valorUnitario := 100, importe := 100, descuento := none,
    objetoImp := some "01", impuestos := none }

/-- The document built from `cW10` alone: `Descuento` is absent. -/
def docW10 : ComprobanteDoc :=
  { subTotal := 100, total := 100, descuento := none, impuestos := none,
    conceptos := [pcW10] }

/-- A tax-inclusive concept whose transferred rate record already carries a
base, triggering the back-solve rejection. -/
def cW4 : Concepto :=
  { cantidad := 1, valorUnitario := 29/25, descuento := none, objetoImp := none,
    traslados := [⟨some 1, "002", "Tasa", some (4/25), none⟩], retenciones := [],
    trasladosIncluidos := true }

/-- A clean tax-inclusive concept: inclusive price 1.16 under a 16% rate
back-solves to exactly 1.00. -/
def cW5 : Concepto :=
  { cantidad := 1, valorUnitario := 29/25, descuento := none, objetoImp := none,
    traslados := [⟨none, "002", "Tasa", some (4/25), none⟩], retenciones := [],
    trasladosIncluidos := true }

/-- The processed form of `cW5`. -/
def pcW5 : ProcConcepto :=
  { cantidad := 1, valorUnitario := 1, importe := 1, descuento := none,
    objetoImp := some "02",
    impuestos := some ([⟨some 1, "002", "Tasa", some (4/25), some (4/25)⟩], []) }

/-- A tax-inclusive concept under a 160% IEPS-style rate (rates above 100%
occur in the source's own fixtures): inclusive price 2.613 back-solves to
1.005, which rounds to 1.01. -/
def cX5 : Concepto :=
  { cantidad := 1, valorUnitario := 2613/1000, descuento := none, objetoImp := none,
    traslados := [⟨none, "002", "Tasa", some (8/5), none⟩], retenciones := [],
    trasladosIncluidos := true }

/-- The processed form of `cX5`: the stored unit price is 1.01 and the taxes
are computed on the unrounded 1.005. -/
def pcX5 : ProcConcepto :=
  { cantidad := 1, valorUnitario := 101/100, importe := 101/100, descuento := none,
    objetoImp := some "02",
    impuestos := some ([⟨some (201/200), "002", "Tasa", some (8/5), some (161/100)⟩], []) }

/-- A tax-inclusive concept with quantity 10: inclusive price 1.16116 under a
16% rate back-solves to exactly 1.001. -/
def cX6 : Concepto :=
  { cantidad := 10, valorUnitario := 116116/100000, descuento := none, objetoImp := none,
    traslados := [⟨none, "002", "Tasa", some (4/25), none⟩], retenciones := [],
    trasladosIncluidos := true }

/-- The processed form of `cX6`: `ValorUnitario` is stored rounded to 1.00 but
`Importe` is 10 times the unrounded 1.001. -/
def pcX6 : ProcConcepto :=
  { cantidad := 10, valorUnitario := 1, importe := 1001/100, descuento := none,
    objetoImp := some "02",
    impuestos := some ([⟨some (1001/100), "002", "Tasa", some (4/25), some (8/5)⟩], []) }

/-- A plain concept whose quantity times unit price has three decimals:
3 × 10.001 = 30.003. -/
def cX3 : Concepto :=
  { cantidad := 3, valorUnitario := 10001/1000, descuento := none, objetoImp := none,
    traslados := [⟨none, "002", "Tasa", some (4/25), none⟩], retenciones := [],
    trasladosIncluidos := false }

/-- The tax record produced for `cX3`: its base is the unrounded 30.003. -/
def tX3 : Impuesto := ⟨some (30003/1000), "002", "Tasa", some (4/25), some (24/5)⟩

/-- The processed form of `cX3`: `Importe` is rounded to 30.00 but the tax
base is 30.003. -/
def pcX3 : ProcConcepto :=
  { cantidad := 3, valorUnitario := 10001/1000, importe := 30, descuento := none,
    objetoImp := some "02", impuestos := some ([tX3], []) }

/-- A plain concept with no taxes, used as a generic witness input. -/
def cW6 : Concepto :=
  { cantidad := 3, valorUnitario := 5/2, descuento := none, objetoImp := some "01",
    traslados := [], retenciones := [], trasladosIncluidos := false }

/-- The processed form of `cW6`. -/
def pcW6 : ProcConcepto :=
  { cantidad := 3, valorUnitario := 5/2, importe := 15/2, descuento := none,
    objetoImp := some "01", impuestos := none }

/-- A source comprobante summary used to witness the batching claim. -/
def cfW7 : CfdiSummary :=
  { moneda := "MXN", emisorRfc := "AAA010101AAA", emisorRegimenFiscal := "601",
    receptorRfc := "KIJ0906199R1", receptorRegimenFiscal := some "601",
    total := 1160, uuid := "6d7434a6-e3f2-47ad-9e4c-08849946afa0" }

/-- The issuer matching `cfW7`. -/
def eW7 : IssuerM := { rfc := "AAA010101AAA", taxSystem := "601" }

end Satcfdi

namespace Satcfdi

theorem abs_rnd_sub (nd : ℕ) (x : ℚ) : |rnd nd x - x| ≤ 1 / (2 * 10 ^ nd) := by
  have hp : (0 : ℚ) < 10 ^ nd := by positivity
  have h1 : rnd nd x - x = -((x * 10 ^ nd - (round (x * 10 ^ nd) : ℤ)) / 10 ^ nd) := by
    unfold rnd
    field_simp
    ring
  rw [h1, abs_neg, abs_div, abs_of_pos hp,
    show (1 : ℚ) / (2 * 10 ^ nd) = (1 / 2) / 10 ^ nd by ring,
    div_le_div_iff_of_pos_right hp]
  exact abs_sub_round (x * 10 ^ nd)

theorem rnd_intMul (nd : ℕ) (k : ℤ) : rnd nd ((k : ℚ) / 10 ^ nd) = (k : ℚ) / 10 ^ nd := by
  have hp : (10 : ℚ) ^ nd ≠ 0 := by positivity
  unfold rnd
  rw [div_mul_cancel₀ _ hp, round_intCast]

theorem sumBy_eq_sum (l : List α) (f : α → ℚ) : sumBy l f = (l.map f).sum := by
  suffices h : ∀ a : ℚ, l.foldl (fun a x => a + f x) a = a + (l.map f).sum by
    simpa [sumBy] using h 0
  induction l with
  | nil => simp
  | cons x xs ih => intro a; simp [ih, add_assoc]

theorem make_impuesto_base (nd : ℕ) (b : ℚ) (i : Impuesto) :
    (make_impuesto nd b i).base = some b := by
  unfold make_impuesto
  split
  · rfl
  · split <;> rfl

theorem processConcepto_error (nd : ℕ) (c : Concepto) (e : String)
    (h : processConcepto nd c = .error e) : e = "AmbiguousTaxBase" := by
  unfold processConcepto at h
  split at h
  · split at h
    · split at h <;> simp_all
    · split at h <;> simp_all
  · split at h <;> simp_all

theorem processConcepto_ok (nd : ℕ) (c : Concepto) (pc : ProcConcepto)
    (h : processConcepto nd c = .ok pc) :
    pc.cantidad = c.cantidad ∧
    pc.valorUnitario = (if c.trasladosIncluidos then rnd nd (effVU c) else c.valorUnitario) ∧
    pc.importe = rnd nd (c.cantidad * effVU c) ∧
    pc.descuento = c.descuento ∧
    ((c.objetoImp = some "01" ∨ c.objetoImp = some "03") →
      pc.impuestos = none ∧ pc.objetoImp = c.objetoImp) ∧
    (¬(c.objetoImp = some "01" ∨ c.objetoImp = some "03") →
      pc.impuestos =
        (if c.traslados.isEmpty && c.retenciones.isEmpty then none
         else some
           (c.traslados.map (make_impuesto nd (c.cantidad * effVU c - c.descuento.getD 0)),
            c.retenciones.map (make_impuesto nd (c.cantidad * effVU c - c.descuento.getD 0)))))
    := by
  unfold processConcepto at h
  split at h
  next hinc =>
    split at h
    · simp at h
    next hamb =>
      split at h
      next hobj =>
        cases h
        simp_all [effVU]
      next hobj =>
        cases h
        simp_all [effVU]
  next hinc =>
    split at h
    next hobj =>
      cases h
      simp_all [effVU]
    next hobj =>
      cases h
      simp_all [effVU]

theorem comprobante_ok (nd : ℕ) (cs : List Concepto) (doc : ComprobanteDoc)
    (h : Comprobante.init nd cs = .ok doc) :
    cs.mapM (processConcepto nd) = .ok doc.conceptos ∧
    doc.subTotal = sumBy doc.conceptos (fun c => c.importe) ∧
    doc.descuento =
      (if sumBy doc.conceptos (fun c => c.descuento.getD 0) = 0 then none
       else some (sumBy doc.conceptos fun c => c.descuento.getD 0)) ∧
    doc.impuestos = make_impuestos doc.conceptos ∧
    doc.total =
      (match make_impuestos doc.conceptos with
       | none => doc.subTotal - sumBy doc.conceptos (fun c => c.descuento.getD 0)
       | some imp =>
         doc.subTotal - sumBy doc.conceptos (fun c => c.descuento.getD 0)
           + imp.totalTrasladados - imp.totalRetenidos) := by
  unfold Comprobante.init at h
  cases hm : cs.mapM (processConcepto nd) with
  | error e => rw [hm] at h; simp at h
  | ok pcs =>
    rw [hm] at h
    cases h
    simp

theorem mapM_error (nd : ℕ) (cs : List Concepto) (c : Concepto) (hc : c ∈ cs)
    (he : processConcepto nd c = .error "AmbiguousTaxBase") :
    cs.mapM (processConcepto nd) = .error "AmbiguousTaxBase" := by
  induction cs with
  | nil => cases hc
  | cons a as ih =>
    rw [List.mapM_cons]
    rcases List.mem_cons.mp hc with h | h
    · subst h
      rw [he]
      rfl
    · cases hfa : processConcepto nd a with
      | error e =>
        have h2 : e = "AmbiguousTaxBase" := processConcepto_error nd a e hfa
        subst h2
        rfl
      | ok p =>
        rw [ih h]
        rfl

/-- Claim C1: for every concept list accepted by the Comprobante constructor, the
document's SubTotal equals the exact sum of the concepts' rounded Importe
values (no re-rounding at subtotal time), the document-level discount equals
the sum of the concepts' Descuento values, and
Total = SubTotal − discount_total + TotalImpuestosTrasladados −
TotalImpuestosRetenidos, with the transferred/withheld terms taken as 0 when
the document carries no taxes. -/
theorem claim_C1 (nd : ℕ) (cs : List Concepto) (doc : ComprobanteDoc)
    (h : Comprobante.init nd cs = .ok doc) :
    doc.subTotal = (doc.conceptos.map fun c => c.importe).sum ∧
    doc.descuento.getD 0 = (doc.conceptos.map fun c => c.descuento.getD 0).sum ∧
    doc.total = doc.subTotal - (doc.conceptos.map fun c => c.descuento.getD 0).sum
        + ((doc.impuestos.map fun i => i.totalTrasladados).getD 0)
        - ((doc.impuestos.map fun i => i.totalRetenidos).getD 0) := by
  obtain ⟨-, hsub, hdesc, himp, htot⟩ := comprobante_ok nd cs doc h
  refine ⟨by rw [hsub, sumBy_eq_sum], ?_, ?_⟩
  · rw [hdesc, ← sumBy_eq_sum]
    split <;> simp_all
  · rw [htot, himp, ← sumBy_eq_sum]
    cases hmi : make_impuestos doc.conceptos <;> simp [hmi]

/-- Witness for C1: the single concept `cW1` (2 × 1.50, discount 1.00, 16%
IVA) yields SubTotal 3.00, Descuento 1.00, Total 2.32. -/
theorem claim_C1_witness :
    Comprobante.init 2 [cW1] = .ok docW1 ∧
    (docW1.subTotal = (docW1.conceptos.map fun c => c.importe).sum ∧
     docW1.descuento.getD 0 = (docW1.conceptos.map fun c => c.descuento.getD 0).sum ∧
     docW1.total = docW1.subTotal - (docW1.conceptos.map fun c => c.descuento.getD 0).sum
        + ((docW1.impuestos.map fun i => i.totalTrasladados).getD 0)
        - ((docW1.impuestos.map fun i => i.totalRetenidos).getD 0)) := by
  have h1 : processConcepto 2 cW1 = .ok pcW1 := by
    simp only [processConcepto, cW1, pcW1, sumTasas, sumCuotas, sumBy, ambiguousIncl,
      make_impuesto, List.filter, List.foldl, List.any, List.map, List.isEmpty, rnd, round_eq]
    norm_num
    simp
  have hh : Comprobante.init 2 [cW1] = .ok docW1 := by
    have h2 : [cW1].mapM (processConcepto 2) = .ok [pcW1] := by
      rw [List.mapM_cons, h1]
      rfl
    unfold Comprobante.init
    rw [h2]
    simp only [docW1, pcW1, sumBy, make_impuestos, allTraslados, allRetenciones, groupImp,
      groupKey, List.foldl, List.filter, List.map, List.flatMap, List.dedup, List.pwFilter,
      List.flatten]
    norm_num
    simp
    norm_num
  exact ⟨hh, claim_C1 2 [cW1] docW1 hh⟩

/-- Claim C10: the document-level Descuento field is absent exactly when the summed
concept discounts are zero, and otherwise carries the (non-zero) sum. -/
theorem claim_C10 (nd : ℕ) (cs : List Concepto) (doc : ComprobanteDoc)
    (h : Comprobante.init nd cs = .ok doc) :
    doc.descuento =
      (if (doc.conceptos.map fun c => c.descuento.getD 0).sum = 0 then none
       else some ((doc.conceptos.map fun c => c.descuento.getD 0).sum)) := by
  obtain ⟨-, -, hdesc, -, -⟩ := comprobante_ok nd cs doc h
  rw [hdesc, sumBy_eq_sum]

/-- Witness for C10: a discount-free concept yields a document with
`Descuento` absent. -/
theorem claim_C10_witness :
    Comprobante.init 2 [cW10] = .ok docW10 ∧
    docW10.descuento =
      (if (docW10.conceptos.map fun c => c.descuento.getD 0).sum = 0 then none
       else some ((docW10.conceptos.map fun c => c.descuento.getD 0).sum)) := by
  have h1 : processConcepto 2 cW10 = .ok pcW10 := by
    simp only [processConcepto, cW10, pcW10, sumTasas, sumCuotas, sumBy, ambiguousIncl,
      make_impuesto, List.filter, List.foldl, List.any, List.map, List.isEmpty, rnd, round_eq]
    norm_num
    simp
  have hh : Comprobante.init 2 [cW10] = .ok docW10 := by
    have h2 : [cW10].mapM (processConcepto 2) = .ok [pcW10] := by
      rw [List.mapM_cons, h1]
      rfl
    unfold Comprobante.init
    rw [h2]
    simp only [docW10, pcW10, sumBy, make_impuestos, allTraslados, allRetenciones, groupImp,
      groupKey, List.foldl, List.filter, List.map, List.flatMap, List.dedup, List.pwFilter,
      List.flatten]
    norm_num
  exact ⟨hh, claim_C10 2 [cW10] docW10 hh⟩

/-- Claim C4: for every concept declared tax-inclusive, if any of its transferred
tax records of factor type Tasa or Cuota already carries an explicit Base or
Importe, building the Comprobante fails with the hard AmbiguousTaxBase error
and no document is produced. -/
theorem claim_C4 (nd : ℕ) (cs : List Concepto) (c : Concepto) (t : Impuesto)
    (hc : c ∈ cs) (hinc : c.trasladosIncluidos = true) (ht : t ∈ c.traslados)
    (htf : t.tipoFactor = "Tasa" ∨ t.tipoFactor = "Cuota")
    (hpre : t.base.isSome = true ∨ t.importe.isSome = true) :
    Comprobante.init nd cs = .error "AmbiguousTaxBase" := by
  have hamb : ambiguousIncl c.traslados = true := by
    unfold ambiguousIncl
    rw [List.any_eq_true]
    refine ⟨t, ht, ?_⟩
    rcases htf with h1 | h1 <;> rcases hpre with h2 | h2 <;> simp [h1, h2]
  have he : processConcepto nd c = .error "AmbiguousTaxBase" := by
    unfold processConcepto
    simp [hinc, hamb]
  unfold Comprobante.init
  rw [mapM_error nd cs c hc he]

/-- Witness for C4: the tax-inclusive concept `cW4`, whose rate record
carries a base, aborts the build. -/
theorem claim_C4_witness :
    cW4 ∈ [cW4] ∧ cW4.trasladosIncluidos = true ∧
    Comprobante.init 2 [cW4] = .error "AmbiguousTaxBase" :=
  ⟨List.mem_singleton.mpr rfl, rfl,
    claim_C4 2 [cW4] cW4 ⟨some 1, "002", "Tasa", some (4/25), none⟩
      (List.mem_singleton.mpr rfl) rfl (by simp [cW4]) (Or.inl rfl) (Or.inl rfl)⟩

/-- Claim C6, corrected: the stored Importe equals round(Cantidad × u) at the
currency precision, where u is the UNROUNDED back-solved unit price when the
concept is tax-inclusive (while the stored ValorUnitario is that price
rounded), and the given unit price otherwise.  The original claim — that the
rounded stored ValorUnitario enters the product — fails, see the
counterexample. -/
theorem claim_C6 (nd : ℕ) (c : Concepto) (pc : ProcConcepto)
    (h : processConcepto nd c = .ok pc) :
    pc.importe = rnd nd (c.cantidad * effVU c) ∧
    pc.valorUnitario = (if c.trasladosIncluidos then rnd nd (effVU c) else c.valorUnitario) :=
  ⟨(processConcepto_ok nd c pc h).2.2.1, (processConcepto_ok nd c pc h).2.1⟩

/-- Witness for C6 at the plain concept `cW6` (3 × 2.50 = 7.50). -/
theorem claim_C6_witness :
    processConcepto 2 cW6 = .ok pcW6 ∧
    (pcW6.importe = rnd 2 (cW6.cantidad * effVU cW6) ∧
     pcW6.valorUnitario = (if cW6.trasladosIncluidos then rnd 2 (effVU cW6) else cW6.valorUnitario)) := by
  have h1 : processConcepto 2 cW6 = .ok pcW6 := by
    simp only [processConcepto, cW6, pcW6, sumTasas, sumCuotas, sumBy, ambiguousIncl,
      make_impuesto, List.filter, List.foldl, List.any, List.map, List.isEmpty, rnd, round_eq]
    norm_num
  exact ⟨h1, claim_C6 2 cW6 pcW6 h1⟩

/-- Counterexample to C6 as stated: for the tax-inclusive concept `cX6`
(10 units at inclusive price 1.16116, 16% rate), the stored ValorUnitario is
the rounded 1.00, yet the stored Importe is 10.01 = round(10 × 1.001), not
round(10 × 1.00) = 10.00. -/
theorem claim_C6_counterexample :
    processConcepto 2 cX6 = .ok pcX6 ∧
    pcX6.importe ≠ rnd 2 (pcX6.cantidad * pcX6.valorUnitario) := by
  constructor
  · simp only [processConcepto, cX6, pcX6, sumTasas, sumCuotas, sumBy, ambiguousIncl,
      make_impuesto, List.filter, List.foldl, List.any, List.map, List.isEmpty, rnd, round_eq]
    norm_num
    simp
  · show (1001/100 : ℚ) ≠ rnd 2 (10 * 1)
    simp only [rnd, round_eq]
    norm_num

/-- Claim C5, corrected: for a tax-inclusive concept with no pre-set Base/Importe on
its rate and fee records (which the successful build enforces), recomputing
the inclusive price from the back-solved rounded unit price reproduces the
original inclusive price to within (1 + sum_of_tasas)/2 rounding units, and
hence within ONE currency rounding unit whenever the sum of the Tasa rates is
at most 1 (100%).  The original unconditional one-unit bound fails for rates
above 100%, see the counterexample. -/
theorem claim_C5 (nd : ℕ) (c : Concepto) (pc : ProcConcepto)
    (hinc : c.trasladosIncluidos = true)
    (hclean : ∀ t ∈ c.traslados, (t.tipoFactor = "Tasa" ∨ t.tipoFactor = "Cuota") →
        t.base = none ∧ t.importe = none)
    (hst : 0 ≤ sumTasas c.traslados)
    (h : processConcepto nd c = .ok pc) :
    |pc.valorUnitario * (1 + sumTasas c.traslados) + sumCuotas c.traslados - c.valorUnitario|
      ≤ (1 + sumTasas c.traslados) / (2 * 10 ^ nd) ∧
    (sumTasas c.traslados ≤ 1 →
      |pc.valorUnitario * (1 + sumTasas c.traslados) + sumCuotas c.traslados - c.valorUnitario|
        ≤ 1 / 10 ^ nd) := by
  have hst1 : (0 : ℚ) < 1 + sumTasas c.traslados := by linarith
  have hv : pc.valorUnitario
      = rnd nd ((c.valorUnitario - sumCuotas c.traslados) / (sumTasas c.traslados + 1)) := by
    have h2 := (processConcepto_ok nd c pc h).2.1
    rw [hinc] at h2
    simpa [effVU, hinc] using h2
  set v : ℚ := (c.valorUnitario - sumCuotas c.traslados) / (sumTasas c.traslados + 1) with hvdef
  have hne : sumTasas c.traslados + 1 ≠ 0 := by linarith
  have hval : v * (1 + sumTasas c.traslados) = c.valorUnitario - sumCuotas c.traslados := by
    rw [hvdef, div_mul_eq_mul_div, div_eq_iff hne]
    ring
  have key : pc.valorUnitario * (1 + sumTasas c.traslados) + sumCuotas c.traslados
      - c.valorUnitario = (rnd nd v - v) * (1 + sumTasas c.traslados) := by
    rw [hv]
    have : c.valorUnitario = v * (1 + sumTasas c.traslados) + sumCuotas c.traslados := by
      rw [hval]; ring
    rw [this]
    ring
  have hbound : |pc.valorUnitario * (1 + sumTasas c.traslados) + sumCuotas c.traslados
      - c.valorUnitario| ≤ (1 + sumTasas c.traslados) / (2 * 10 ^ nd) := by
    rw [key, abs_mul, abs_of_pos hst1]
    calc |rnd nd v - v| * (1 + sumTasas c.traslados)
        ≤ (1 / (2 * 10 ^ nd)) * (1 + sumTasas c.traslados) :=
          mul_le_mul_of_nonneg_right (abs_rnd_sub nd v) (le_of_lt hst1)
      _ = (1 + sumTasas c.traslados) / (2 * 10 ^ nd) := by ring
  refine ⟨hbound, fun hle => le_trans hbound ?_⟩
  rw [div_le_div_iff₀ (by positivity) (by positivity)]
  have hp : (0 : ℚ) < 10 ^ nd := by positivity
  nlinarith [hp]

/-- Witness for C5: inclusive price 1.16 under a 16% rate back-solves to
exactly 1.00 and the recomputed inclusive price is exact. -/
theorem claim_C5_witness :
    processConcepto 2 cW5 = .ok pcW5 ∧
    (|pcW5.valorUnitario * (1 + sumTasas cW5.traslados) + sumCuotas cW5.traslados
        - cW5.valorUnitario| ≤ (1 + sumTasas cW5.traslados) / (2 * 10 ^ 2) ∧
     (sumTasas cW5.traslados ≤ 1 →
       |pcW5.valorUnitario * (1 + sumTasas cW5.traslados) + sumCuotas cW5.traslados
         - cW5.valorUnitario| ≤ 1 / 10 ^ 2)) := by
  have h1 : processConcepto 2 cW5 = .ok pcW5 := by
    simp only [processConcepto, cW5, pcW5, sumTasas, sumCuotas, sumBy, ambiguousIncl,
      make_impuesto, List.filter, List.foldl, List.any, List.map, List.isEmpty, rnd, round_eq]
    norm_num
    simp
  refine ⟨h1, claim_C5 2 cW5 pcW5 rfl ?_ ?_ h1⟩
  · intro t ht htf
    simp only [cW5, List.mem_singleton] at ht
    subst ht
    exact ⟨rfl, rfl⟩
  · simp only [cW5, sumTasas, sumBy, List.filter, List.foldl]
    norm_num

/-- Counterexample to C5 as stated: under a 160% rate (a rate the source's own
fixtures use), inclusive price 2.613 back-solves to 1.005, stored as 1.01;
recomputing gives 1.01 × 2.6 = 2.626, which misses 2.613 by 0.013, more than
one rounding unit (0.01). -/
theorem claim_C5_counterexample :
    processConcepto 2 cX5 = .ok pcX5 ∧
    ¬ |pcX5.valorUnitario * (1 + sumTasas cX5.traslados) + sumCuotas cX5.traslados
        - cX5.valorUnitario| ≤ 1 / 10 ^ 2 := by
  constructor
  · simp only [processConcepto, cX5, pcX5, sumTasas, sumCuotas, sumBy, ambiguousIncl,
      make_impuesto, List.filter, List.foldl, List.any, List.map, List.isEmpty, rnd, round_eq]
    norm_num
    simp
  · simp only [cX5, pcX5, sumTasas, sumCuotas, sumBy, List.filter, List.foldl]
    norm_num
    rw [lt_abs]
    left
    norm_num

/-- Claim C3, corrected: for every concept not declared not-subject-to-tax, each
transferred and withheld tax record is computed against
base = (quantity × unit_price) − discount with the product UNROUNDED (the
unit price being the unrounded back-solved price for tax-inclusive concepts),
not against the rounded stored Importe as the claim states — see the
counterexample. -/
theorem claim_C3 (nd : ℕ) (c : Concepto) (pc : ProcConcepto)
    (ts rs : List Impuesto)
    (hobj : ¬(c.objetoImp = some "01" ∨ c.objetoImp = some "03"))
    (h : processConcepto nd c = .ok pc)
    (him : pc.impuestos = some (ts, rs)) :
    (∀ t ∈ ts, t.base = some (c.cantidad * effVU c - c.descuento.getD 0)) ∧
    (∀ t ∈ rs, t.base = some (c.cantidad * effVU c - c.descuento.getD 0)) := by
  have htax := (processConcepto_ok nd c pc h).2.2.2.2.2 hobj
  rw [htax] at him
  split at him
  · simp at him
  · rw [Option.some_inj] at him
    have hts := congrArg Prod.fst him.symm
    have hrs := congrArg Prod.snd him.symm
    simp only [] at hts hrs
    constructor <;> intro t htm
    · rw [hts] at htm
      obtain ⟨i, -, hi⟩ := List.mem_map.mp htm
      rw [← hi]
      exact make_impuesto_base nd _ i
    · rw [hrs] at htm
      obtain ⟨i, -, hi⟩ := List.mem_map.mp htm
      rw [← hi]
      exact make_impuesto_base nd _ i

/-- Witness for C3 at `cW1` processed: both tax records carry
base = 2 × 1.5 − 1 = 2. -/
theorem claim_C3_witness :
    processConcepto 2 cW1 = .ok pcW1 ∧
    ((∀ t ∈ [(⟨some 2, "002", "Tasa", some (4/25), some (8/25)⟩ : Impuesto)],
        t.base = some (cW1.cantidad * effVU cW1 - cW1.descuento.getD 0)) ∧
     (∀ t ∈ ([] : List Impuesto),
        t.base = some (cW1.cantidad * effVU cW1 - cW1.descuento.getD 0))) := by
  have h1 : processConcepto 2 cW1 = .ok pcW1 := by
    simp only [processConcepto, cW1, pcW1, sumTasas, sumCuotas, sumBy, ambiguousIncl,
      make_impuesto, List.filter, List.foldl, List.any, List.map, List.isEmpty, rnd, round_eq]
    norm_num
    simp
  exact ⟨h1, claim_C3 2 cW1 pcW1 _ _ (by simp [cW1]) h1 rfl⟩

/-- Counterexample to C3 as stated: for `cX3` (3 × 10.001), the stored
Importe is the rounded 30.00, but the transferred record's base is the
unrounded 30.003. -/
theorem claim_C3_counterexample :
    processConcepto 2 cX3 = .ok pcX3 ∧
    pcX3.impuestos = some ([tX3], []) ∧
    tX3.base ≠ some (pcX3.importe - pcX3.descuento.getD 0) := by
  refine ⟨?_, rfl, ?_⟩
  · simp only [processConcepto, cX3, pcX3, tX3, sumTasas, sumCuotas, sumBy, ambiguousIncl,
      make_impuesto, List.filter, List.foldl, List.any, List.map, List.isEmpty, rnd, round_eq]
    norm_num
    simp
  · show some ((30003 : ℚ)/1000) ≠ some ((30 : ℚ) - (none : Option ℚ).getD 0)
    simp only [Option.getD_none, Option.some_inj]
    norm_num

/-- Claim C2: each tax group of the payment document built by `pago_comprobante`
against a taxed prior document is the original group prorated by
round(group_amount × paid_now / total) at the original currency precision;
paying the full total reproduces any at-precision group amount exactly, and
paying half the total yields half the group amount within rounding. -/
theorem claim_C2 (nd : ℕ) (cs : List ProcConcepto) (sa pd t g : ℚ) (k : ℤ)
    (ht : t ≠ 0) (hg : g = (k : ℚ) / 10 ^ nd) :
    make_impuestos_dr_parcial nd cs sa pd t
      = ((groupImp (allTraslados cs)).map (prorateImp nd pd t),
         (groupImp (allRetenciones cs)).map (prorateImp nd pd t)) ∧
    prorate nd g t t = g ∧
    |prorate nd g (t / 2) t - g / 2| ≤ 1 / (2 * 10 ^ nd) := by
  refine ⟨rfl, ?_, ?_⟩
  · unfold prorate
    rw [mul_div_assoc, div_self ht, mul_one, hg, rnd_intMul]
  · unfold prorate
    have heq : g * (t / 2) / t = g / 2 := by
      field_simp
      ring
    rw [heq]
    exact abs_rnd_sub nd (g / 2)

/-- Witness for C2 at the spec's proration example: total 1500, group amount
360000.00 (an at-precision amount). -/
theorem claim_C2_witness :
    ((1500 : ℚ) ≠ 0 ∧ (360000 : ℚ) = ((36000000 : ℤ) : ℚ) / 10 ^ 2) ∧
    (make_impuestos_dr_parcial 2 [] 0 1500 1500
       = ((groupImp (allTraslados [])).map (prorateImp 2 1500 1500),
          (groupImp (allRetenciones [])).map (prorateImp 2 1500 1500)) ∧
     prorate 2 360000 1500 1500 = 360000 ∧
     |prorate 2 360000 (1500 / 2) 1500 - 360000 / 2| ≤ 1 / (2 * 10 ^ 2)) :=
  ⟨⟨by norm_num, by norm_num⟩,
   claim_C2 2 [] 0 1500 1500 360000 36000000 (by norm_num) (by norm_num)⟩

/-- Claim C7: for every non-empty sequence of source comprobantes,
`pago_comprobantes` raises exactly when some comprobante's currency differs
from the first's, or its issuer RFC or issuer tax regime differs from the
paying issuer's, or its receiver RFC or receiver tax regime differs from the
first comprobante's receiver; when all agree it produces one full-payment
`DoctoRelacionado` per comprobante. -/
theorem claim_C7 (e : IssuerM) (first : CfdiSummary) (rest : List CfdiSummary) :
    ((∃ err, pago_comprobantes e (first :: rest) = .error err) ↔
      ∃ c ∈ first :: rest,
        c.moneda ≠ first.moneda ∨ c.emisorRfc ≠ e.rfc ∨ c.emisorRegimenFiscal ≠ e.taxSystem
        ∨ c.receptorRfc ≠ first.receptorRfc
        ∨ c.receptorRegimenFiscal ≠ first.receptorRegimenFiscal) ∧
    ((∀ c ∈ first :: rest,
        c.moneda = first.moneda ∧ c.emisorRfc = e.rfc ∧ c.emisorRegimenFiscal = e.taxSystem
        ∧ c.receptorRfc = first.receptorRfc
        ∧ c.receptorRegimenFiscal = first.receptorRegimenFiscal) →
      pago_comprobantes e (first :: rest)
        = .ok ((first :: rest).map fun c => ⟨c.uuid, 1, c.total, c.total⟩)) := by
  simp only [pago_comprobantes]
  split
  next hall =>
    rw [List.all_eq_true] at hall
    constructor
    · constructor
      · rintro ⟨err, herr⟩
        simp at herr
      · rintro ⟨c, hc, hbad⟩
        have hok := hall c hc
        simp only [Bool.and_eq_true, beq_iff_eq] at hok
        tauto
    · intro hgood
      rfl
  next hall =>
    rw [List.all_eq_true] at hall
    push_neg at hall
    constructor
    · constructor
      · intro hex
        obtain ⟨c, hc, hbad⟩ := hall
        refine ⟨c, hc, ?_⟩
        simp at hbad
        tauto
      · intro hex
        exact ⟨_, rfl⟩
    · intro hgood
      exfalso
      obtain ⟨c, hc, hbad⟩ := hall
      have hok := hgood c hc
      simp at hbad
      tauto

/-- Witness for C7: a single matching comprobante yields a single
full-payment entry. -/
theorem claim_C7_witness :
    pago_comprobantes eW7 [cfW7]
      = .ok ([cfW7].map fun c => ⟨c.uuid, 1, c.total, c.total⟩) :=
  (claim_C7 eW7 cfW7 []).2 (by
    intro c hc
    rw [List.mem_singleton] at hc
    subst hc
    exact ⟨rfl, rfl, rfl, rfl, rfl⟩)

/-- Claim C8: the compact tax-string parser splits on the `|` delimiter into kind,
factor and an optional decimal rate (absent when there is no third part); with
fewer than two parts (for example when the text contains no delimiter, so the
factor part is missing) it fails with the MalformedTaxSpec error. -/
theorem claim_C8 (s : String) :
    ((splitOnChar '|' s.data).length < 2 →
      Impuesto.parse s = .error "MalformedTaxSpec") ∧
    (∀ p0 p1, splitOnChar '|' s.data = [p0, p1] →
      Impuesto.parse s = .ok (Impuesto.init (String.mk p0) (String.mk p1) none none none)) ∧
    (∀ p0 p1 p2 rest, splitOnChar '|' s.data = p0 :: p1 :: p2 :: rest →
      Impuesto.parse s =
        (match parseDecimal p2 with
         | some q => .ok (Impuesto.init (String.mk p0) (String.mk p1) (some q) none none)
         | none => .error "InvalidOperation")) := by
  refine ⟨?_, ?_, ?_⟩
  · intro hlen
    unfold Impuesto.parse
    cases hsp : splitOnChar '|' s.data with
    | nil => rfl
    | cons a as =>
      cases as with
      | nil => rfl
      | cons b bs =>
        rw [hsp] at hlen
        simp only [List.length_cons] at hlen
        omega
  · intro p0 p1 hsp
    unfold Impuesto.parse
    rw [hsp]
  · intro p0 p1 p2 rest hsp
    unfold Impuesto.parse
    rw [hsp]

/-- Witness for C8: "002" has no delimiter (one part, the factor is missing)
and is rejected; "002|Tasa|0.160000" parses into kind, factor and rate. -/
theorem claim_C8_witness :
    ((splitOnChar '|' ("002" : String).data).length < 2 ∧
      Impuesto.parse "002" = .error "MalformedTaxSpec") ∧
    (splitOnChar '|' ("002|Tasa" : String).data
        = [['0', '0', '2'], ['T', 'a', 's', 'a']] ∧
      Impuesto.parse "002|Tasa"
        = .ok (Impuesto.init "002" "Tasa" none none none)) :=
  ⟨⟨by decide, (claim_C8 "002").1 (by decide)⟩,
   ⟨by decide, (claim_C8 "002|Tasa").2.1 ['0', '0', '2'] ['T', 'a', 's', 'a'] (by decide)⟩⟩

/-- Claim C9: the Impuesto constructor stores the kinds ISR, IVA and IEPS as their
numeric codes 001, 002 and 003, and stores every other kind string verbatim;
no kind is ever rejected (the constructor is total). -/
theorem claim_C9 (tf : String) (t i b : Option ℚ) (s : String)
    (h1 : s ≠ "ISR") (h2 : s ≠ "IVA") (h3 : s ≠ "IEPS") :
    (Impuesto.init "ISR" tf t i b).impuesto = "001" ∧
    (Impuesto.init "IVA" tf t i b).impuesto = "002" ∧
    (Impuesto.init "IEPS" tf t i b).impuesto = "003" ∧
    (Impuesto.init s tf t i b).impuesto = s := by
  refine ⟨rfl, rfl, rfl, ?_⟩
  simp only [Impuesto.init, _impuestos, List.lookup]
  rw [show (s == "ISR") = false from beq_eq_false_iff_ne.mpr h1,
    show (s == "IVA") = false from beq_eq_false_iff_ne.mpr h2,
    show (s == "IEPS") = false from beq_eq_false_iff_ne.mpr h3]
  rfl

/-- Witness for C9 at the already-numeric kind "004", stored verbatim. -/
theorem claim_C9_witness :
    (("004" : String) ≠ "ISR" ∧ ("004" : String) ≠ "IVA" ∧ ("004" : String) ≠ "IEPS") ∧
    ((Impuesto.init "ISR" "Tasa" none none none).impuesto = "001" ∧
     (Impuesto.init "IVA" "Tasa" none none none).impuesto = "002" ∧
     (Impuesto.init "IEPS" "Tasa" none none none).impuesto = "003" ∧
     (Impuesto.init "004" "Tasa" none none none).impuesto = "004") :=
  ⟨⟨by decide, by decide, by decide⟩,
   claim_C9 "Tasa" none none none "004" (by decide) (by decide) (by decide)⟩

end Satcfdi
